import Mathlib

set_option maxRecDepth 4000

/-!
Verification of the request-processing core of the curie-ai chatbot.

This file gives a shallow embedding of the deduplication caches
(src/utils/dedupe.py, src/agent/chat_workflow.py), the LLM manager's
token budgeting, response cache, model residency and sanity filter
(src/llm/manager.py), and the orchestrator ChatWorkflow.process_message
(src/agent/chat_workflow.py), and proves or refutes the specification
claims about them.

Conventions of the embedding:
- Python dicts become association lists (List (String × _)) preserving
  Python's insertion-order semantics: assignment to an existing key keeps
  its position, assignment to a fresh key appends at the end, deletion
  removes the entry.
- Timestamps are Int (time.time() passed explicitly, as the source's
  check(key, now) interface itself allows).
- Exceptions become Except String; a Python function that cannot raise is
  embedded as a total function or one always returning Except.ok.
- External collaborators (DB-backed UserManager / ConversationManager,
  llama_cpp model objects) are oracle parameters.
-/

/-- First value bound to a key in an association list
(Python `dict.get(key)` / `key in dict`). -/
def assocFind {α : Type} (k : String) : List (String × α) → Option α
  | [] => none
  | (a, b) :: rest => if a = k then some b else assocFind k rest

/-- Python `d[k] = v` on an insertion-ordered dict: an existing key keeps
its position (its value is replaced in place), a fresh key is appended at
the end. -/
def assocSet {α : Type} (l : List (String × α)) (k : String) (v : α) :
    List (String × α) :=
  if l.any (fun p => decide (p.1 = k)) then
    l.map (fun p => if p.1 = k then (k, v) else p)
  else
    l ++ [(k, v)]

/-- `while len(cache) > max_size: del cache[first_key]` — FIFO eviction
loop shared by DedupeCache._prune, MessageDedupeCache.set,
PromptCache.set and ResponseCache.set. -/
def fifoTrim {α : Type} (maxSize : Int) : List α → List α
  | [] => []
  | x :: xs =>
    if maxSize < ((x :: xs).length : Int) then fifoTrim maxSize xs
    else x :: xs

/-- src/utils/dedupe.py DedupeCache: `_cache : dict[str, float]` plus the
constructor-validated `ttl_seconds` and `max_size`. -/
structure DedupeCache where
  ttl : Int
  maxSize : Int
  entries : List (String × Int)
deriving Repr, DecidableEq

/-- DedupeCache.__init__ (src/utils/dedupe.py lines 30-51): raises
ValueError on negative ttl_seconds or max_size, otherwise starts empty. -/
def DedupeCache.init (ttl maxSize : Int) : Except String DedupeCache :=
  if ttl < 0 then .error "ttl_seconds must be >= 0"
  else if maxSize < 0 then .error "max_size must be >= 0"
  else .ok ⟨ttl, maxSize, []⟩

/-- DedupeCache._prune (lines 53-74): if ttl_seconds > 0 remove entries
with timestamp < now - ttl_seconds, then if max_size > 0 evict from the
front while the size exceeds max_size. -/
def DedupeCache.prune (c : DedupeCache) (now : Int) : DedupeCache :=
  let e1 :=
    if 0 < c.ttl then
      c.entries.filter (fun p => decide (now - c.ttl ≤ p.2))
    else c.entries
  let e2 := if 0 < c.maxSize then fifoTrim c.maxSize e1 else e1
  { c with entries := e2 }

/-- DedupeCache.check (lines 76-115): empty key returns False without
mutation; a present, unexpired key returns True (timestamp untouched);
a present-but-expired or absent key gets `_cache[key] = now` (in-place
update or append) and returns False; both mutating branches prune. -/
def DedupeCache.check (c : DedupeCache) (key : String) (now : Int) :
    Bool × DedupeCache :=
  if key = "" then (false, c)
  else
    match assocFind key c.entries with
    | some ts =>
      if c.ttl ≤ 0 ∨ now - ts < c.ttl then
        (true, c.prune now)
      else
        (false, ({ c with entries := assocSet c.entries key now }).prune now)
    | none => (false, ({ c with entries := assocSet c.entries key now }).prune now)

/-- src/agent/chat_workflow.py MessageDedupeCache: OrderedDict
`key ↦ (timestamp, response)` with key `platform:external_chat_id:message_id`.
Its constructor (lines 38-42) just stores the arguments — no validation. -/
structure MessageDedupeCache where
  ttl : Int
  maxSize : Int
  entries : List (String × Int × String)
deriving Repr, DecidableEq

/-- MessageDedupeCache.__init__ (lines 38-42): assigns the fields and
never raises, whatever the arguments. -/
def MessageDedupeCache.init (ttl maxSize : Int) :
    Except String MessageDedupeCache :=
  .ok ⟨ttl, maxSize, []⟩

/-- Key format `platform:external_chat_id:message_id` (lines 53 and 64). -/
def MessageDedupeCache.mkKey (platform chatId messageId : String) : String :=
  platform ++ ":" ++ chatId ++ ":" ++ messageId

/-- MessageDedupeCache._cleanup_expired (lines 44-49): remove entries with
now - timestamp > ttl_seconds (no ttl > 0 guard in the source). -/
def MessageDedupeCache.cleanupExpired (mc : MessageDedupeCache) (now : Int) :
    MessageDedupeCache :=
  { mc with entries := mc.entries.filter (fun p => decide (now - p.2.1 ≤ mc.ttl)) }

/-- MessageDedupeCache.get (lines 51-60): cleanup expired, then return the
stored response if the key is present (None otherwise). The cleanup
mutates the cache, so the updated cache is returned alongside. -/
def MessageDedupeCache.get (mc : MessageDedupeCache)
    (platform chatId messageId : String) (now : Int) :
    Option String × MessageDedupeCache :=
  let mc1 := mc.cleanupExpired now
  (Option.map (fun e => e.2) (assocFind (mkKey platform chatId messageId) mc1.entries),
   mc1)

/-- MessageDedupeCache.set (lines 62-70): store (timestamp, response)
under the key (OrderedDict assignment: in-place for an existing key,
append for a fresh one), then FIFO-evict while the size exceeds max_size.
No expired-entry cleanup happens here. -/
def MessageDedupeCache.set (mc : MessageDedupeCache)
    (platform chatId messageId response : String) (now : Int) :
    MessageDedupeCache :=
  { mc with entries :=
      (fifoTrim mc.maxSize
        (assocSet mc.entries (mkKey platform chatId messageId) (now, response))) }

/-! ### Python string helpers shared by manager.py and chat_workflow.py -/

/-- The ASCII whitespace characters recognized by Python's `str.strip`,
`str.split` and the regex class `\s` (non-ASCII whitespace does not occur
in the strings this development evaluates). -/
def pyIsSpace (c : Char) : Bool :=
  c = ' ' ∨ c = '\t' ∨ c = '\n' ∨ c = '\r' ∨ c = '\x0b' ∨ c = '\x0c'

/-- Python `str.strip()`: drop leading and trailing whitespace. -/
def pyStrip (s : String) : String :=
  String.mk (((s.data.dropWhile pyIsSpace).reverse.dropWhile pyIsSpace).reverse)

/-- Worker for `pySplit`: accumulate the current word (reversed). -/
def pySplitGo : List Char → List Char → List String
  | [], acc => if acc.isEmpty then [] else [String.mk acc.reverse]
  | c :: cs, acc =>
    if pyIsSpace c then
      if acc.isEmpty then pySplitGo cs []
      else String.mk acc.reverse :: pySplitGo cs []
    else pySplitGo cs (c :: acc)

/-- Python `str.split()` with no argument: split on whitespace runs,
producing no empty words. -/
def pySplit (s : String) : List String := pySplitGo s.data []

/-- Length of the longest run of consecutive equal elements
(state: previous element, current run length, best so far). -/
def maxRunGo {α : Type} [DecidableEq α] : List α → Option α → Nat → Nat → Nat
  | [], _, _, best => best
  | x :: xs, prev, cur, best =>
    let cur2 := if prev = some x then cur + 1 else 1
    maxRunGo xs (some x) cur2 (Nat.max best cur2)

/-- Longest run of consecutive equal elements of a list (0 for []). -/
def maxRun {α : Type} [DecidableEq α] (l : List α) : Nat := maxRunGo l none 0 0

/-- Worker for `maxDotRun`: like `maxRunGo` on characters, but a newline
can never start or extend a run, because the regex metacharacter `.`
does not match a newline when re.DOTALL is not given. -/
def dotRunGo : List Char → Option Char → Nat → Nat → Nat
  | [], _, _, best => best
  | c :: cs, prev, cur, best =>
    if c = '\n' then dotRunGo cs none 0 best
    else
      let cur2 := if prev = some c then cur + 1 else 1
      dotRunGo cs (some c) cur2 (Nat.max best cur2)

/-- Length of the longest run of a repeated NON-NEWLINE character:
`re.search(r"(.)\1{10,}", s)` (no DOTALL) matches exactly when
`11 ≤ maxDotRun s.data`, since `(.)` cannot capture a newline. -/
def maxDotRun (l : List Char) : Nat := dotRunGo l none 0 0

/-- Python `s[:n]`. -/
def pyTake (n : Nat) (s : String) : String := String.mk (s.data.take n)

/-- Python `str.lower()` on one character (ASCII range, which covers the
word-comparison done by the sanity filter on the strings evaluated here). -/
def pyLowerChar (c : Char) : Char :=
  if 'A' ≤ c ∧ c ≤ 'Z' then Char.ofNat (c.toNat + 32) else c

/-- Python `str.lower()` (ASCII range). -/
def pyLower (s : String) : String := String.mk (s.data.map pyLowerChar)

/-! ### src/llm/manager.py: configuration constants

The `_get_int_env` defaults apply when the corresponding environment
variables are unset (the configuration under which the spec states its
concrete scenarios). -/

def MODEL_CONTEXT_SIZE : Int := 2048
def CONTEXT_BUFFER_TOKENS : Int := 16
def MIN_AVAILABLE_TOKENS : Int := 64
def FALLBACK_MAX_TOKENS : Int := 512
def DEFAULT_MAX_TOKENS : Int := 128
def MAX_MODELS_IN_CACHE : Nat := 1

/-- Fallback default model name used when LLM_MODELS is unset
(src/llm/manager.py lines 27-31). -/
def DEFAULT_LLAMA_MODEL : String := "Meta-Llama-3.1-8B-Instruct-Q4_K_M.gguf"

/-- The f-string returned by ask_llm when the prompt exhausts the context
window (src/llm/manager.py line 316). -/
def promptTooLongMsg (promptTokens : Int) : String :=
  "[Error: Prompt too long (" ++ toString promptTokens ++
    " tokens). Maximum context is " ++ toString MODEL_CONTEXT_SIZE ++ " tokens.]"

/-- Token budgeting of ask_llm (src/llm/manager.py lines 305-318), for the
case where tokenization succeeded with `promptTokens` tokens:
available = MODEL_CONTEXT_SIZE - prompt_tokens - CONTEXT_BUFFER_TOKENS;
if available < MIN_AVAILABLE_TOKENS return the error string (no
inference), else cap max_tokens at min(max_tokens, available). -/
def tokenBudget (promptTokens maxTokens : Int) : Except String Int :=
  let available := MODEL_CONTEXT_SIZE - promptTokens - CONTEXT_BUFFER_TOKENS
  if available < MIN_AVAILABLE_TOKENS then .error (promptTooLongMsg promptTokens)
  else .ok (min maxTokens available)

/-- The budgeting step followed by the inference call (src/llm/manager.py
lines 305-332), with the llama_cpp generation abstracted as the oracle
`infer`. The Bool records whether inference was invoked. -/
def askInference (infer : Int → String) (promptTokens maxTokens : Int) :
    String × Bool :=
  match tokenBudget promptTokens maxTokens with
  | .error msg => (msg, false)
  | .ok capped => (infer capped, true)

/-! ### src/llm/manager.py: response cache and model residency -/

/-- Module-level `_response_cache_ttl = 300` (line 48). -/
def RESPONSE_CACHE_TTL : Int := 300

/-- The `_response_cache : OrderedDict` maps an md5 key derived from
(prompt, temperature, max_tokens) to (response, timestamp); the key
derivation is abstracted, entries are keyed by the key string. -/
def ResponseCache := List (String × String × Int)

/-- ResponseCache.get (lines 96-112): on a present, unexpired key return
the stored response; on a present-but-expired key delete it and miss;
otherwise miss. Returns the possibly-updated cache. -/
def responseCacheGet (rc : ResponseCache) (key : String) (now : Int) :
    Option String × ResponseCache :=
  match assocFind key rc with
  | some (resp, ts) =>
    if now - ts < RESPONSE_CACHE_TTL then (some resp, rc)
    else (none, rc.filter (fun p => decide (¬ p.1 = key)))
  | none => (none, rc)

/-- The short-circuit at src/llm/manager.py lines 268-271:
`cached_response = ResponseCache.get(...); if cached_response: return it`.
Python truthiness: both None and the empty string fall through to full
processing. -/
def askShortCircuit (rc : ResponseCache) (key : String) (now : Int) :
    Option String :=
  match (responseCacheGet rc key now).1 with
  | some r => if r = "" then none else some r
  | none => none

/-- _cleanup_excess_models (lines 70-84): if more than MAX_MODELS_IN_CACHE
models are resident, delete every model except the first key of the dict
(`excess_models = list(keys)[1:]`). The model cache is represented by its
key list in insertion order. -/
def cleanupExcessModels (cache : List String) : List String :=
  if MAX_MODELS_IN_CACHE < cache.length then cache.take 1 else cache

/-- `llama_models_cache[name] = model`: dict assignment on the name list
(existing name keeps its position, fresh name appends). -/
def modelCacheInsert (cache : List String) (name : String) : List String :=
  if cache.contains name then cache else cache ++ [name]

/-- _load_model_with_fallback (lines 154-197): try the preferred model
then the AVAILABLE_MODELS list, skipping blanks, returning the first
candidate whose file exists under models/ and whose Llama(...) call
succeeds; the `seen` set only skips duplicates, which cannot change the
first successful candidate. `onDisk` is os.path.exists, `loads` the
llama_cpp constructor outcome. -/
def loadModelWithFallback (preferred : Option String) (avail : List String)
    (onDisk loads : String → Bool) : Option String :=
  (preferred.toList ++ avail).find? (fun m => m ≠ "" ∧ onDisk m ∧ loads m)

/-- Result of the model-selection phase of ask_llm: the model that will
serve the request (none = "[Error: Failed to load any available model]"),
the resulting resident-model cache, and whether a fresh load happened. -/
structure AskModelResult where
  selected : Option String
  cache : List String
  loaded : Bool
deriving Repr, DecidableEq

/-- Model selection of ask_llm (src/llm/manager.py lines 273-303): use the
requested model if resident; else use ANY resident model; only if nothing
is resident, lazy-load with fallback, insert, and clean up excess models.
`modelName` is the ask_llm argument; llm_config["model_path"] defaults to
"" so the preferred model falls back to DEFAULT_LLAMA_MODEL. -/
def askSelectModel (cache : List String) (modelName : Option String)
    (avail : List String) (onDisk loads : String → Bool) : AskModelResult :=
  let preferred :=
    match modelName with
    | some m => if m = "" then DEFAULT_LLAMA_MODEL else m
    | none => DEFAULT_LLAMA_MODEL
  if cache.contains preferred then ⟨some preferred, cache, false⟩
  else
    match cache.head? with
    | some m => ⟨some m, cache, false⟩
    | none =>
      match loadModelWithFallback (some preferred) avail onDisk loads with
      | none => ⟨none, cache, false⟩
      | some m => ⟨some m, cleanupExcessModels (modelCacheInsert cache m), true⟩

/-- preload_llama_model (lines 227-247): load with fallback (preferred =
llm_config["model_path"] or DEFAULT_LLAMA_MODEL), raise if every candidate
fails, otherwise insert into the model cache. No cap enforcement here. -/
def preloadLlamaModel (cache : List String) (avail : List String)
    (onDisk loads : String → Bool) : Except String (List String) :=
  match loadModelWithFallback (some DEFAULT_LLAMA_MODEL) avail onDisk loads with
  | none => .error "Failed to load any available LLM model"
  | some m => .ok (modelCacheInsert cache m)

/-! ### src/llm/manager.py: _sanity_filter_response (lines 360-398) -/

def sanityApologyEmpty : String :=
  "I'm having trouble formulating a response. Could you rephrase that?"

def sanityApologyInvalid : String :=
  "I apologize, I seem to have generated an invalid response. Could you try asking again?"

def sanityApologyShort : String := "I'm not sure how to respond to that."

/-- _sanity_filter_response: empty/whitespace-only input gets the first
apology; a single non-newline character repeated 11+ times consecutively
(regex `(.)\1{10,}` without DOTALL, so `.` never matches a newline) gets
the invalid-response apology; the same word (lowercase compare) repeated
more than 3 times consecutively gets the same apology but ONLY when the
response splits into more than 5 words; responses shorter than 2
characters get the short apology; anything else is returned verbatim. -/
def sanityFilterResponse (response : String) : String :=
  if response.length = 0 ∨ (pyStrip response).length = 0 then sanityApologyEmpty
  else if 11 ≤ maxDotRun response.data then sanityApologyInvalid
  else
    let words := pySplit response
    if 5 < words.length ∧ 3 < maxRun (words.map pyLower) then
      sanityApologyInvalid
    else if response.length < 2 then sanityApologyShort
    else response

/-- The input "ha"*20 from the spec's sanity-filter scenario. -/
def haTimes20 : String := String.join (List.replicate 20 "ha")

/-- "a" followed by 11 newlines and "b": a run of 11 identical characters
that the regex `(.)\1{10,}` can NOT match, since `.` excludes newlines. -/
def nlRun11 : String := String.mk ('a' :: (List.replicate 11 '\n' ++ ['b']))

/-! ### src/agent/chat_workflow.py: ChatWorkflow._sanitize_output
(lines 467-486) and its regex patterns (lines 168-170) -/

/-- Case-insensitive prefix test: does `l` start with `tag` once
lowercased? (the tags below are written lowercase). -/
def startsWithCI (tag l : List Char) : Bool :=
  (l.take tag.length).map pyLowerChar = tag

/-- The alternatives of SPEAKER_TAG_PATTERN
`^\s*(?:User:|Curie:|Assistant:|Coder:|System:)` with re.IGNORECASE. -/
def speakerTags : List (List Char) :=
  ["user:".data, "curie:".data, "assistant:".data, "coder:".data, "system:".data]

/-- `SPEAKER_TAG_PATTERN.sub('', response)`: the pattern is anchored at
the start (no MULTILINE), so at most the one leading occurrence of
optional whitespace followed by a speaker tag is removed. -/
def removeLeadingSpeakerTag (s : String) : String :=
  let rest := s.data.dropWhile pyIsSpace
  match speakerTags.find? (fun t => startsWithCI t rest) with
  | some t => String.mk (rest.drop t.length)
  | none => s

/-- The alternatives of META_NOTE_PATTERN
`\[(?:Note|Meta|Aside|System):[^\]]*\]` with re.IGNORECASE. -/
def metaTags : List (List Char) :=
  ["note:".data, "meta:".data, "aside:".data, "system:".data]

/-- Length of the META_NOTE_PATTERN match starting exactly at the head of
`l`, if any: an opening bracket, a tag, a maximal run of non-bracket
characters, then the closing bracket. -/
def metaMatchLen (l : List Char) : Option Nat :=
  match l with
  | '[' :: rest =>
    match metaTags.find? (fun t => startsWithCI t rest) with
    | some t =>
      let body := (rest.drop t.length).takeWhile (fun c => decide (¬ c = ']'))
      if ((rest.drop t.length).drop body.length).head? = some ']' then
        some (1 + t.length + body.length + 1)
      else none
    | none => none
  | _ => none

/-- Length of the ACTION_PATTERN (`\*[^*]*\*`) match starting exactly at
the head of `l`, if any. -/
def actionMatchLen (l : List Char) : Option Nat :=
  match l with
  | '*' :: rest =>
    let body := rest.takeWhile (fun c => decide (¬ c = '*'))
    if (rest.drop body.length).head? = some '*' then
      some (1 + body.length + 1)
    else none
  | _ => none

/-- `re.sub(pattern, '', text)` driven by a match-length function: at each
position, if the pattern matches consume it, otherwise keep the character
and advance one. The fuel argument bounds the number of steps; every step
consumes at least one character (both matchers above return lengths ≥ 2),
so fuel = length of the input makes the fuel bound unreachable. -/
def scanRemove (f : List Char → Option Nat) : Nat → List Char → List Char
  | 0, l => l
  | _ + 1, [] => []
  | fuel + 1, c :: rest =>
    match f (c :: rest) with
    | some n => scanRemove f fuel ((c :: rest).drop n)
    | none => c :: scanRemove f fuel rest

/-- `META_NOTE_PATTERN.sub('', response)`. -/
def removeMetaNotes (s : String) : String :=
  String.mk (scanRemove metaMatchLen s.data.length s.data)

/-- `ACTION_PATTERN.sub('', response)`. -/
def removeActions (s : String) : String :=
  String.mk (scanRemove actionMatchLen s.data.length s.data)

/-- `re.sub(r'\s+', ' ', response)`: collapse every whitespace run to a
single space. The Bool flag records whether the previous character was
part of a whitespace run. -/
def collapseWsGo : Bool → List Char → List Char
  | _, [] => []
  | prevWs, c :: rest =>
    if pyIsSpace c then
      if prevWs then collapseWsGo true rest
      else ' ' :: collapseWsGo true rest
    else c :: collapseWsGo false rest

/-- `re.sub(r'\s+', ' ', s)`. -/
def collapseWs (s : String) : String := String.mk (collapseWsGo false s.data)

/-- ChatWorkflow._sanitize_output (lines 467-486): strip a leading speaker
tag, strip; remove meta notes, strip; remove action markup, strip;
collapse whitespace runs; strip. -/
def sanitizeOutput (response : String) : String :=
  let r1 := pyStrip (removeLeadingSpeakerTag response)
  let r2 := pyStrip (removeMetaNotes r1)
  let r3 := pyStrip (removeActions r2)
  pyStrip (collapseWs r3)

/-! ### src/agent/chat_workflow.py: ChatWorkflow.process_message
(lines 206-329)

External collaborators are oracles: UserManager (identity resolution over
the database), the coding-assistant skill probe, ConversationManager
persistence, the context batch-load, and llm_manager.ask_llm applied to
the built prompt. Each is an `Except String _` so a raised exception is
representable; a `.error` escaping `processMessage` models an unhandled
exception reaching the connector. -/

/-- The normalized input dict. A missing dict key is `none` (fields that
the source passes through `str(...)`/`.strip()` are taken as strings). -/
structure NormalizedInput where
  platform : Option String
  external_user_id : Option String
  external_chat_id : Option String
  message_id : Option String
  text : Option String
  internal_id : Option String
deriving Repr, DecidableEq

/-- Python truthiness of an optional string: None and "" are falsy. -/
def pythonTruthy : Option String → Bool
  | none => false
  | some s => ¬ s = ""

/-- The response dict {text, timestamp, model_used, processing_time_ms}
(processing_time_ms, a wall-clock duration, is not modelled). -/
structure ChatResponse where
  text : String
  model_used : String
  timestamp : Int
deriving Repr, DecidableEq

/-- The oracles for one processing turn. Deterministic within the turn:
repeated calls to the same collaborator return the same outcome. -/
structure WorkflowEnv where
  getOrCreateInternalId : Except String String
  codingQuery : Except String (Option String)
  loadContext : Except String Unit
  askLLM : Except String String
  saveConversation : Except String Unit

/-- The normal LLM path of the try block (lines 284-319): context load,
LLM call, output sanitization (the small-talk hook is a no-op in the
source: _should_add_small_talk always returns False), history persistence
(user then assistant), dedupe store, response. Any `.error` here is a
raised exception to be caught by `processMessage`'s outer except. -/
def processLLMPath (env : WorkflowEnv) (wf : MessageDedupeCache)
    (platform chatId messageId : String) (now : Int) :
    Except String (ChatResponse × MessageDedupeCache) :=
  match env.loadContext with
  | .error e => .error e
  | .ok _ =>
    match env.askLLM with
    | .error e => .error e
    | .ok raw =>
      let response := sanitizeOutput raw
      match env.saveConversation with
      | .error e => .error e
      | .ok _ =>
        match env.saveConversation with
        | .error e => .error e
        | .ok _ =>
          let wf2 := wf.set platform chatId messageId response now
          .ok (⟨response, DEFAULT_LLAMA_MODEL, now⟩, wf2)

/-- The body of the outer `try:` block (lines 258-319): coding-skill probe
inside its own try/except — any exception there (including one from the
history saves inside that inner try) is logged and falls through to the
normal LLM path — otherwise a non-empty coding response is persisted,
stored in the dedupe cache and returned tagged "coding_skill". -/
def processCore (env : WorkflowEnv) (wf : MessageDedupeCache)
    (platform chatId messageId _userText : String) (now : Int) :
    Except String (ChatResponse × MessageDedupeCache) :=
  let codingAttempt : Except String (Option (ChatResponse × MessageDedupeCache)) :=
    match env.codingQuery with
    | .error e => .error e
    | .ok none => .ok none
    | .ok (some codingResponse) =>
      if codingResponse = "" then .ok none
      else
        match env.saveConversation with
        | .error e => .error e
        | .ok _ =>
          match env.saveConversation with
          | .error e => .error e
          | .ok _ =>
            let wf2 := wf.set platform chatId messageId codingResponse now
            .ok (some (⟨codingResponse, "coding_skill", now⟩, wf2))
  match codingAttempt with
  | .ok (some result) => .ok result
  | _ => processLLMPath env wf platform chatId messageId now

/-- Identity resolution (lines 236-245): a truthy pre-resolved internal_id
bypasses the lookup, otherwise UserManager.get_or_create_user_internal_id
is consulted (and may raise). -/
def resolveIdentity (env : WorkflowEnv) (input : NormalizedInput) :
    Except String String :=
  if pythonTruthy input.internal_id then .ok (input.internal_id.getD "")
  else env.getOrCreateInternalId

/-- ChatWorkflow.process_message (lines 206-329). Stages in source order:
field extraction with defaults, required-field validation, identity
resolution (OUTSIDE the try block — a raised exception propagates), the
dedupe-cache lookup with Python-truthiness short-circuit (also outside
the try block), then the try block `processCore` whose exceptions are
converted into the bracketed error response. -/
def processMessage (env : WorkflowEnv) (wf : MessageDedupeCache)
    (input : NormalizedInput) (now : Int) :
    Except String (ChatResponse × MessageDedupeCache) :=
  let platform := input.platform.getD "unknown"
  let messageId := input.message_id.getD ""
  let userText := pyStrip (input.text.getD "")
  if ¬ (pythonTruthy input.external_user_id ∧ pythonTruthy input.external_chat_id ∧
        ¬ userText = "") then
    .ok (⟨"[Error: Invalid message format]", "N/A", now⟩, wf)
  else
    match resolveIdentity env input with
    | .error e => .error e
    | .ok _ =>
      let chatId := input.external_chat_id.getD ""
      let lookup := wf.get platform chatId messageId now
      let wf1 := lookup.2
      let shortCircuit : Option String :=
        match lookup.1 with
        | some r => if r = "" then none else some r
        | none => none
      match shortCircuit with
      | some r => .ok (⟨r, "dedupe_cache", now⟩, wf1)
      | none =>
        match processCore env wf1 platform chatId messageId userText now with
        | .ok result => .ok result
        | .error e =>
          .ok (⟨"[Error processing message: " ++ pyTake 100 e ++ "]", "N/A", now⟩, wf1)

/-- Did the computation return normally (no exception escaped)? -/
def exceptIsOk {ε α : Type} : Except ε α → Bool
  | .ok _ => true
  | .error _ => false

/-! ### Concrete fixtures used by the claim scenarios -/

/-- A turn where every collaborator succeeds and the LLM answers
"Bonjour!". -/
def envOK : WorkflowEnv :=
  ⟨.ok "user-1", .ok none, .ok (), .ok "Bonjour!", .ok ()⟩

/-- A turn identical to `envOK` except that the LLM output is pure action
markup, which the output sanitizer reduces to the empty string. -/
def envActionOnly : WorkflowEnv :=
  ⟨.ok "user-1", .ok none, .ok (), .ok "*waves*", .ok ()⟩

/-- A turn where the user-identity database lookup raises. -/
def envIdentityDown : WorkflowEnv :=
  ⟨.error "db down", .ok none, .ok (), .ok "Bonjour!", .ok ()⟩

/-- A valid normalized input (the spec's end-to-end scenario). -/
def inputOK : NormalizedInput :=
  ⟨some "api", some "u1", some "u1", some "m1", some "Hello", none⟩

/-- The workflow's dedupe cache as constructed at
src/agent/chat_workflow.py line 189: ttl_seconds=600, max_size=5000. -/
def wfEmpty : MessageDedupeCache := ⟨600, 5000, []⟩

/-! ## General lemmas about the dict/eviction primitives -/

theorem fifoTrim_subset {α : Type} (maxSize : Int) :
    ∀ l : List α, fifoTrim maxSize l ⊆ l := by
  intro l
  induction l with
  | nil => simp [fifoTrim]
  | cons x xs ih =>
    simp only [fifoTrim]
    split
    · exact ih.trans (List.subset_cons_self x xs)
    · exact List.Subset.refl _

theorem fifoTrim_length_le {α : Type} (maxSize : Int) (h : 0 ≤ maxSize) :
    ∀ l : List α, ((fifoTrim maxSize l).length : Int) ≤ maxSize := by
  intro l
  induction l with
  | nil => simpa [fifoTrim] using h
  | cons x xs ih =>
    simp only [fifoTrim]
    split
    · exact ih
    · omega

theorem fifoTrim_of_length_le {α : Type} (maxSize : Int) (l : List α)
    (h : (l.length : Int) ≤ maxSize) : fifoTrim maxSize l = l := by
  cases l with
  | nil => rfl
  | cons x xs =>
    simp only [fifoTrim]
    rw [if_neg]
    omega

theorem fifoTrim_append_singleton {α : Type} (maxSize : Int) (l : List α) (e : α)
    (hmax : 1 ≤ maxSize) (hlen : (l.length : Int) ≤ maxSize) :
    ∃ l2, fifoTrim maxSize (l ++ [e]) = l2 ++ [e] ∧ ∀ p ∈ l2, p ∈ l := by
  cases l with
  | nil =>
    refine ⟨[], ?_, by simp⟩
    simp only [List.nil_append, fifoTrim]
    rw [if_neg]
    simp
    omega
  | cons x xs =>
    by_cases hfit : ((x :: xs ++ [e]).length : Int) ≤ maxSize
    · exact ⟨x :: xs, fifoTrim_of_length_le maxSize _ hfit, fun p hp => hp⟩
    · refine ⟨xs, ?_, fun p hp => List.mem_cons_of_mem x hp⟩
      simp only [List.cons_append, fifoTrim]
      rw [if_pos (by simp at hfit ⊢; omega)]
      apply fifoTrim_of_length_le
      simp at hlen ⊢
      omega

theorem assocFind_append_fresh {α : Type} (k : String) (e : α) :
    ∀ l : List (String × α), (∀ p ∈ l, ¬ p.1 = k) →
      assocFind k (l ++ [(k, e)]) = some e := by
  intro l
  induction l with
  | nil => simp [assocFind]
  | cons x xs ih =>
    intro hfresh
    simp only [List.cons_append, assocFind]
    rw [if_neg (hfresh x (List.mem_cons_self x xs))]
    exact ih fun p hp => hfresh p (List.mem_cons_of_mem x hp)

theorem assocFind_filter_append_fresh {α : Type} (k : String) (e : α)
    (pred : String × α → Bool) (hp : pred (k, e) = true) (l : List (String × α))
    (hfresh : ∀ p ∈ l, ¬ p.1 = k) :
    assocFind k ((l ++ [(k, e)]).filter pred) = some e := by
  rw [List.filter_append]
  have : [(k, e)].filter pred = [(k, e)] := by simp [hp]
  rw [this]
  exact assocFind_append_fresh k e _ fun p hp2 => hfresh p (List.mem_of_mem_filter hp2)

theorem assocFind_filter_update {α : Type} (k : String) (v : α)
    (pred : String × α → Bool) (hp : pred (k, v) = true) :
    ∀ l : List (String × α), l.any (fun p => decide (p.1 = k)) = true →
      assocFind k ((l.map (fun p => if p.1 = k then (k, v) else p)).filter pred) =
        some v := by
  intro l
  induction l with
  | nil => simp
  | cons x xs ih =>
    intro hany
    by_cases hx : x.1 = k
    · simp only [List.map_cons, if_pos hx, List.filter_cons, hp, assocFind]
      simp [assocFind]
    · simp only [List.map_cons, if_neg hx, List.filter_cons]
      have hany2 : xs.any (fun p => decide (p.1 = k)) = true := by
        simp only [List.any_cons] at hany
        rcases Bool.or_eq_true_iff.mp hany with h1 | h2
        · exact absurd (of_decide_eq_true h1) hx
        · exact h2
      split
      · simp only [assocFind, if_neg hx]
        exact ih hany2
      · exact ih hany2

theorem assocSet_not_mem_key {α : Type} (l : List (String × α)) (k : String) (_v : α)
    (hany : ¬ l.any (fun p => decide (p.1 = k)) = true) :
    ∀ p ∈ l, ¬ p.1 = k := by
  intro p hp hk
  exact hany (List.any_eq_true.mpr ⟨p, hp, by simp [hk]⟩)

/-- Dict write then TTL filter then lookup: the just-written key is found
with the written value, provided the key survives the eviction loop
(cache within capacity and positive size bound) and the filter predicate
accepts the new entry. This is the core of MessageDedupeCache.set
followed by MessageDedupeCache.get. -/
theorem assocFind_filter_fifoTrim_assocSet {α : Type} (k : String) (v : α)
    (pred : String × α → Bool) (hp : pred (k, v) = true) (maxSize : Int)
    (l : List (String × α)) (hmax : 1 ≤ maxSize)
    (hlen : (l.length : Int) ≤ maxSize) :
    assocFind k ((fifoTrim maxSize (assocSet l k v)).filter pred) = some v := by
  unfold assocSet
  by_cases hany : l.any (fun p => decide (p.1 = k)) = true
  · rw [if_pos hany]
    rw [fifoTrim_of_length_le maxSize _ (by simpa using hlen)]
    exact assocFind_filter_update k v pred hp l hany
  · rw [if_neg hany]
    obtain ⟨l2, htrim, hsub⟩ := fifoTrim_append_singleton maxSize l (k, v) hmax hlen
    rw [htrim]
    exact assocFind_filter_append_fresh k v pred hp l2
      fun p hp2 => assocSet_not_mem_key l k v hany p (hsub p hp2)

/-! ## Lemmas about the two cache classes -/

/-- A response stored by MessageDedupeCache.set is returned by a
MessageDedupeCache.get on the same key, provided the cache held at most
max_size entries before the set, max_size is at least 1, and no more than
ttl_seconds elapse between set and get. -/
theorem msgGet_after_set (mc : MessageDedupeCache) (pl ch mid v : String)
    (n1 n2 : Int) (hmax : 1 ≤ mc.maxSize)
    (hlen : (mc.entries.length : Int) ≤ mc.maxSize) (httl : n2 - n1 ≤ mc.ttl) :
    ((mc.set pl ch mid v n1).get pl ch mid n2).1 = some v := by
  unfold MessageDedupeCache.set MessageDedupeCache.get MessageDedupeCache.cleanupExpired
  simp only
  rw [assocFind_filter_fifoTrim_assocSet (MessageDedupeCache.mkKey pl ch mid)
    (n1, v) _ (by simp; omega) mc.maxSize mc.entries hmax hlen]
  rfl

/-- MessageDedupeCache.set never raises and leaves at most max_size
entries when max_size is non-negative (the eviction loop runs without a
positivity guard). -/
theorem msgSet_length_le (mc : MessageDedupeCache) (pl ch mid v : String)
    (now : Int) (hmax : 0 ≤ mc.maxSize) :
    (((mc.set pl ch mid v now).entries.length : Int)) ≤ mc.maxSize := by
  unfold MessageDedupeCache.set
  exact fifoTrim_length_le mc.maxSize hmax _

/-- Every branch of DedupeCache.check with a non-empty key ends in a call
to DedupeCache._prune (on the original or the updated dict). -/
theorem check_snd_eq_prune (c : DedupeCache) (k : String) (now : Int)
    (hk : ¬ k = "") :
    ∃ l, (c.check k now).2 = DedupeCache.prune ⟨c.ttl, c.maxSize, l⟩ now := by
  unfold DedupeCache.check
  rw [if_neg hk]
  rcases h : assocFind k c.entries with _ | ts <;> simp only [h]
  · exact ⟨assocSet c.entries k now, rfl⟩
  · split
    · exact ⟨c.entries, rfl⟩
    · exact ⟨assocSet c.entries k now, rfl⟩

/-- After DedupeCache._prune with a positive ttl, every surviving entry is
within ttl of `now`. -/
theorem prune_ttl_bound (c : DedupeCache) (now : Int) (httl : 0 < c.ttl) :
    ∀ p ∈ (c.prune now).entries, now - c.ttl ≤ p.2 := by
  unfold DedupeCache.prune
  simp only [if_pos httl]
  intro p hp
  have hp2 : p ∈ c.entries.filter (fun p => decide (now - c.ttl ≤ p.2)) := by
    split at hp
    · exact fifoTrim_subset _ _ hp
    · exact hp
  have := List.of_mem_filter hp2
  exact of_decide_eq_true this

/-- After DedupeCache._prune with a positive max_size, at most max_size
entries survive. -/
theorem prune_length_bound (c : DedupeCache) (now : Int) (hmax : 0 < c.maxSize) :
    (((c.prune now).entries.length : Int)) ≤ c.maxSize := by
  unfold DedupeCache.prune
  simp only [if_pos hmax]
  exact fifoTrim_length_le c.maxSize (le_of_lt hmax) _

/-- An all-whitespace (in particular, length-zero) string strips to the
empty string. -/
theorem pyStrip_length_zero (r : String) (h : r.length = 0) :
    (pyStrip r).length = 0 := by
  have hd : r.data = [] := by
    have : r.data.length = 0 := h
    exact List.eq_nil_of_length_eq_zero this
  simp [pyStrip, hd, String.length]

/-! ## Claim C3: token budget enforcement in ask_llm -/

/-- C3: when tokenization succeeds, ask_llm computes
available = MODEL_CONTEXT_SIZE - prompt_tokens - CONTEXT_BUFFER_TOKENS;
if available < MIN_AVAILABLE_TOKENS it returns the "prompt too long"
error string without invoking inference, otherwise it invokes inference
with max_tokens capped to min(requested, available); in particular a
2000-token prompt under the default 2048/16/64 configuration yields the
"prompt too long" result. -/
theorem ask_llm_token_budget (pt mt : Int) :
    (MODEL_CONTEXT_SIZE - pt - CONTEXT_BUFFER_TOKENS < MIN_AVAILABLE_TOKENS →
      ∀ infer : Int → String,
        askInference infer pt mt = (promptTooLongMsg pt, false)) ∧
    (MIN_AVAILABLE_TOKENS ≤ MODEL_CONTEXT_SIZE - pt - CONTEXT_BUFFER_TOKENS →
      ∀ infer : Int → String,
        askInference infer pt mt =
          (infer (min mt (MODEL_CONTEXT_SIZE - pt - CONTEXT_BUFFER_TOKENS)), true)) ∧
    (∀ infer : Int → String,
      askInference infer 2000 512 = (promptTooLongMsg 2000, false)) := by
  refine ⟨?_, ?_, ?_⟩
  · intro h infer
    unfold askInference tokenBudget
    simp only
    rw [if_pos h]
  · intro h infer
    unfold askInference tokenBudget
    simp only
    rw [if_neg (by omega)]
  · intro infer
    unfold askInference tokenBudget
    simp only
    rw [if_pos (by decide)]

/-- Witness for C3: both budgeting branches evaluated at concrete
prompt sizes. -/
theorem ask_llm_token_budget_witness :
    (MODEL_CONTEXT_SIZE - 2000 - CONTEXT_BUFFER_TOKENS < MIN_AVAILABLE_TOKENS ∧
      askInference (fun _ => "generated") 2000 512 = (promptTooLongMsg 2000, false)) ∧
    (MIN_AVAILABLE_TOKENS ≤ MODEL_CONTEXT_SIZE - 100 - CONTEXT_BUFFER_TOKENS ∧
      askInference (fun t => toString t) 100 512 =
        (toString (min (512 : Int) (MODEL_CONTEXT_SIZE - 100 - CONTEXT_BUFFER_TOKENS)),
          true)) :=
  ⟨⟨by decide, (ask_llm_token_budget 2000 512).1 (by decide) _⟩,
   ⟨by decide, (ask_llm_token_budget 100 512).2.1 (by decide) _⟩⟩

/-! ## Claim C4: expired-key re-insertion position in DedupeCache -/

/-- C4: the claim (and the repository's own test
test_dedupe_cache_expired_key_fifo_order) says an expired, re-checked key
is re-inserted at the END of the FIFO order. The code instead performs a
dict assignment on the still-present key, which keeps its ORIGINAL
position, so it is the first to be size-evicted. Replaying the test's
exact sequence: key1 re-checked at t=101 stays in front, adding key4 at
t=102 evicts key1 (not key2), and the test's final assertion
`cache.check("key1", 103) is True` fails — the code returns False. -/
theorem dedupe_expired_recheck_code_bug :
    (DedupeCache.mk 100 3 []).check "key1" 0 =
      (false, ⟨100, 3, [("key1", 0)]⟩) ∧
    (DedupeCache.mk 100 3 [("key1", 0)]).check "key2" 5 =
      (false, ⟨100, 3, [("key1", 0), ("key2", 5)]⟩) ∧
    (DedupeCache.mk 100 3 [("key1", 0), ("key2", 5)]).check "key3" 10 =
      (false, ⟨100, 3, [("key1", 0), ("key2", 5), ("key3", 10)]⟩) ∧
    (DedupeCache.mk 100 3 [("key1", 0), ("key2", 5), ("key3", 10)]).check "key1" 101 =
      (false, ⟨100, 3, [("key1", 101), ("key2", 5), ("key3", 10)]⟩) ∧
    (DedupeCache.mk 100 3 [("key1", 101), ("key2", 5), ("key3", 10)]).check "key4" 102 =
      (false, ⟨100, 3, [("key2", 5), ("key3", 10), ("key4", 102)]⟩) ∧
    ((DedupeCache.mk 100 3 [("key2", 5), ("key3", 10), ("key4", 102)]).check
      "key1" 103).1 = false := by
  decide

/-! ## Claim C5: sanity filter substitution -/

/-- C5 counterexample: "ha"*20 contains no single character repeated 11
times consecutively (the characters alternate), and it is a single word,
so _sanity_filter_response returns it verbatim — not the canned apology
the claim requires. Likewise a word repeated 4 times consecutively
passes through when the response has at most 5 words. -/
theorem sanity_filter_counterexample :
    sanityFilterResponse haTimes20 = haTimes20 ∧
    ¬ sanityFilterResponse haTimes20 = sanityApologyInvalid ∧
    ¬ sanityFilterResponse haTimes20 = sanityApologyEmpty ∧
    sanityFilterResponse "go go go go stop" = "go go go go stop" := by
  decide

/-- C5 amended: the filter substitutes the canned strings for an
empty/whitespace-only response, for a single NON-NEWLINE character
repeated at least 11 times consecutively (the regex's `.` does not match
a newline, so an 11-newline run passes through), and for a word repeated
more than 3 times consecutively provided the response splits into MORE
THAN 5 words; the input "ha"*20 matches none of these rules and is
returned verbatim, as is "a" followed by 11 newlines and "b". -/
theorem sanity_filter_amended :
    (∀ r : String, (pyStrip r).length = 0 →
      sanityFilterResponse r = sanityApologyEmpty) ∧
    (∀ r : String, ¬ (pyStrip r).length = 0 → 11 ≤ maxDotRun r.data →
      sanityFilterResponse r = sanityApologyInvalid) ∧
    (∀ r : String, ¬ (pyStrip r).length = 0 → maxDotRun r.data < 11 →
      5 < (pySplit r).length → 3 < maxRun ((pySplit r).map pyLower) →
      sanityFilterResponse r = sanityApologyInvalid) ∧
    sanityFilterResponse haTimes20 = haTimes20 ∧
    sanityFilterResponse nlRun11 = nlRun11 := by
  refine ⟨?_, ?_, ?_, by decide, by decide⟩
  · intro r h
    unfold sanityFilterResponse
    rw [if_pos (Or.inr h)]
  · intro r h h11
    unfold sanityFilterResponse
    rw [if_neg (by rintro (h0 | h0) <;> [exact h (pyStrip_length_zero r h0); exact h h0])]
    rw [if_pos h11]
  · intro r h h11 hw hrun
    unfold sanityFilterResponse
    rw [if_neg (by rintro (h0 | h0) <;> [exact h (pyStrip_length_zero r h0); exact h h0])]
    rw [if_neg (by omega)]
    simp only
    rw [if_pos ⟨hw, hrun⟩]

/-- Witness for C5: each substitution rule fired at a concrete input. -/
theorem sanity_filter_amended_witness :
    ((pyStrip "  ").length = 0 ∧ sanityFilterResponse "  " = sanityApologyEmpty) ∧
    (¬ (pyStrip "aaaaaaaaaaa").length = 0 ∧ 11 ≤ maxDotRun "aaaaaaaaaaa".data ∧
      sanityFilterResponse "aaaaaaaaaaa" = sanityApologyInvalid) ∧
    (¬ (pyStrip "a b go go go go").length = 0 ∧
      maxDotRun "a b go go go go".data < 11 ∧
      5 < (pySplit "a b go go go go").length ∧
      3 < maxRun ((pySplit "a b go go go go").map pyLower) ∧
      sanityFilterResponse "a b go go go go" = sanityApologyInvalid) :=
  ⟨⟨by decide, sanity_filter_amended.1 "  " (by decide)⟩,
   ⟨by decide, by decide, sanity_filter_amended.2.1 "aaaaaaaaaaa" (by decide) (by decide)⟩,
   ⟨by decide, by decide, by decide, by decide,
     sanity_filter_amended.2.2.1 "a b go go go go" (by decide) (by decide) (by decide)
       (by decide)⟩⟩

/-! ## Claim C6: prune discipline of the TTL caches -/

/-- C6 counterexample: MessageDedupeCache.set performs NO expired-entry
cleanup. With ttl_seconds = 10, an entry written at t=0 is still present
after a mutating set at t=100, 90 seconds past its TTL. -/
theorem msg_set_keeps_expired_counterexample :
    (((MessageDedupeCache.mk 10 5000 []).set "p" "c" "m1" "r1" 0).set
        "p" "c" "m2" "r2" 100).entries =
      [("p:c:m1", 0, "r1"), ("p:c:m2", 100, "r2")] ∧
    (10 : Int) < 100 - 0 := by
  decide

/-- C6 amended: after DedupeCache.check with a non-empty key, all entries
older than ttl_seconds are removed (when ttl_seconds > 0) and the size is
capped at max_size (when max_size > 0); after MessageDedupeCache.set only
the size bound is enforced (expired entries are removed by get, not set);
inserting max_size + 1 distinct keys into either variant evicts exactly
the oldest-inserted key and the size never exceeds max_size. -/
theorem cache_prune_discipline_amended :
    (∀ (c : DedupeCache) (k : String) (now : Int), ¬ k = "" → 0 < c.ttl →
      ∀ p ∈ ((c.check k now).2).entries, now - c.ttl ≤ p.2) ∧
    (∀ (c : DedupeCache) (k : String) (now : Int), ¬ k = "" → 0 < c.maxSize →
      (((c.check k now).2.entries.length : Int)) ≤ c.maxSize) ∧
    (∀ (m : MessageDedupeCache) (pl ch mid v : String) (now : Int),
      0 ≤ m.maxSize →
      (((m.set pl ch mid v now).entries.length : Int)) ≤ m.maxSize) ∧
    ((DedupeCache.mk 600 2 [("k1", 0), ("k2", 1)]).check "k3" 2 =
      (false, ⟨600, 2, [("k2", 1), ("k3", 2)]⟩)) ∧
    ((((MessageDedupeCache.mk 600 2 []).set "p" "c" "m1" "r1" 0).set
        "p" "c" "m2" "r2" 1).set "p" "c" "m3" "r3" 2).entries =
      [("p:c:m2", 1, "r2"), ("p:c:m3", 2, "r3")] := by
  refine ⟨?_, ?_, ?_, by decide, by decide⟩
  · intro c k now hk httl p hp
    obtain ⟨l, hl⟩ := check_snd_eq_prune c k now hk
    rw [hl] at hp
    exact prune_ttl_bound ⟨c.ttl, c.maxSize, l⟩ now httl p hp
  · intro c k now hk hmax
    obtain ⟨l, hl⟩ := check_snd_eq_prune c k now hk
    rw [hl]
    exact prune_length_bound ⟨c.ttl, c.maxSize, l⟩ now hmax
  · intro m pl ch mid v now hmax
    exact msgSet_length_le m pl ch mid v now hmax

/-- Witness for C6: the universally quantified clauses evaluated at
concrete caches. -/
theorem cache_prune_discipline_amended_witness :
    ((5 : Int) - 600 ≤ ("k", (0 : Int)).2) ∧
    ((((DedupeCache.mk 600 2 [("a", 0), ("b", 1)]).check "c" 2).2.entries.length :
        Int) ≤ 2) ∧
    ((((MessageDedupeCache.mk 600 5000 []).set "p" "c" "m" "r" 0).entries.length :
        Int) ≤ 5000) :=
  ⟨cache_prune_discipline_amended.1 ⟨600, 2, [("k", 0)]⟩ "k2" 5 (by decide)
      (by decide) ("k", 0) (by decide),
   cache_prune_discipline_amended.2.1 ⟨600, 2, [("a", 0), ("b", 1)]⟩ "c" 2
      (by decide) (by decide),
   cache_prune_discipline_amended.2.2.1 ⟨600, 5000, []⟩ "p" "c" "m" "r" 0 (by decide)⟩

/-! ## Claim C7: constructor validation of the TTL-cache variants -/

/-- C7 counterexample: MessageDedupeCache's constructor performs no
validation at all — negative ttl_seconds or max_size are accepted without
error. -/
theorem msg_init_no_validation_counterexample :
    MessageDedupeCache.init (-1) 5000 = .ok ⟨-1, 5000, []⟩ ∧
    MessageDedupeCache.init 600 (-1) = .ok ⟨600, -1, []⟩ :=
  ⟨rfl, rfl⟩

/-- C7 amended: DedupeCache's constructor raises ValueError on
ttl_seconds < 0 or max_size < 0 and succeeds on non-negative arguments;
MessageDedupeCache's constructor accepts any arguments without raising. -/
theorem cache_init_validation_amended (t m : Int) :
    (t < 0 → DedupeCache.init t m = .error "ttl_seconds must be >= 0") ∧
    (0 ≤ t → m < 0 → DedupeCache.init t m = .error "max_size must be >= 0") ∧
    (0 ≤ t → 0 ≤ m → DedupeCache.init t m = .ok ⟨t, m, []⟩) ∧
    MessageDedupeCache.init t m = .ok ⟨t, m, []⟩ := by
  refine ⟨?_, ?_, ?_, rfl⟩
  · intro h
    unfold DedupeCache.init
    rw [if_pos h]
  · intro h1 h2
    unfold DedupeCache.init
    rw [if_neg (by omega), if_pos h2]
  · intro h1 h2
    unfold DedupeCache.init
    rw [if_neg (by omega), if_neg (by omega)]

/-- Witness for C7: each constructor branch at concrete arguments. -/
theorem cache_init_validation_amended_witness :
    ((-1 : Int) < 0 ∧ DedupeCache.init (-1) 100 = .error "ttl_seconds must be >= 0") ∧
    ((0 : Int) ≤ 10 ∧ (-1 : Int) < 0 ∧
      DedupeCache.init 10 (-1) = .error "max_size must be >= 0") ∧
    ((0 : Int) ≤ 300 ∧ (0 : Int) ≤ 1000 ∧
      DedupeCache.init 300 1000 = .ok ⟨300, 1000, []⟩) ∧
    MessageDedupeCache.init (-7) (-7) = .ok ⟨-7, -7, []⟩ :=
  ⟨⟨by decide, (cache_init_validation_amended (-1) 100).1 (by decide)⟩,
   ⟨by decide, by decide, (cache_init_validation_amended 10 (-1)).2.1 (by decide)
      (by decide)⟩,
   ⟨by decide, by decide, (cache_init_validation_amended 300 1000).2.2.1 (by decide)
      (by decide)⟩,
   (cache_init_validation_amended (-7) (-7)).2.2.2⟩

/-! ## Claim C8: model residency cap -/

/-- C8 counterexample: with model B resident and MAX_MODELS_IN_CACHE = 1,
ask_llm requested for model A serves the request with B and performs NO
fresh load of A (the "any resident model" branch), contradicting the
claimed fresh load; moreover preload_llama_model enforces no cap, so a
preload that falls back to B while A is resident leaves 2 models
resident. -/
theorem model_residency_counterexample :
    askSelectModel ["B"] (some "A") [] (fun m => decide (m = "A" ∨ m = "B"))
        (fun _ => true) = ⟨some "B", ["B"], false⟩ ∧
    preloadLlamaModel ["A"] ["A", "B"] (fun m => decide (m = "A" ∨ m = "B"))
        (fun m => decide (m = "B")) = .ok ["A", "B"] ∧
    MAX_MODELS_IN_CACHE < (["A", "B"] : List String).length := by
  refine ⟨by decide, rfl, by decide⟩

/-- C8 amended: the residency cap is enforced only on ask_llm's lazy-load
path, which runs only when no model is resident (and then leaves at most
MAX_MODELS_IN_CACHE models); whenever any model is resident, ask_llm
performs no load and serves the request from the resident cache, even for
a different requested model — so a request for an evicted model A is
answered by whatever is resident, not by reloading A. -/
theorem model_residency_amended :
    (∀ (cache : List String) (modelName : Option String) (avail : List String)
        (onDisk loads : String → Bool), ¬ cache = [] →
      (askSelectModel cache modelName avail onDisk loads).loaded = false ∧
      (askSelectModel cache modelName avail onDisk loads).cache = cache) ∧
    (∀ (modelName : Option String) (avail : List String)
        (onDisk loads : String → Bool),
      (askSelectModel [] modelName avail onDisk loads).cache.length ≤
        MAX_MODELS_IN_CACHE) := by
  constructor
  · intro cache modelName avail onDisk loads hne
    unfold askSelectModel
    simp only
    split
    · exact ⟨rfl, rfl⟩
    · cases cache with
      | nil => exact absurd rfl hne
      | cons x xs => exact ⟨rfl, rfl⟩
  · intro modelName avail onDisk loads
    unfold askSelectModel
    simp only [List.contains, List.elem_nil, Bool.false_eq_true, if_false,
      List.head?]
    cases h : loadModelWithFallback
        (some (match modelName with
          | some m => if m = "" then DEFAULT_LLAMA_MODEL else m
          | none => DEFAULT_LLAMA_MODEL)) avail onDisk loads with
    | none => simp
    | some m => simp [cleanupExcessModels, modelCacheInsert, MAX_MODELS_IN_CACHE]

/-- Witness for C8: both clauses at concrete caches. -/
theorem model_residency_amended_witness :
    (¬ (["B"] : List String) = [] ∧
      (askSelectModel ["B"] (some "A") [] (fun _ => true) (fun _ => true)).loaded =
        false ∧
      (askSelectModel ["B"] (some "A") [] (fun _ => true) (fun _ => true)).cache =
        ["B"]) ∧
    (askSelectModel [] (some "A") ["A"] (fun _ => true)
        (fun _ => true)).cache.length ≤ MAX_MODELS_IN_CACHE :=
  ⟨⟨by decide,
    (model_residency_amended.1 ["B"] (some "A") [] (fun _ => true) (fun _ => true)
      (by decide)).1,
    (model_residency_amended.1 ["B"] (some "A") [] (fun _ => true) (fun _ => true)
      (by decide)).2⟩,
   model_residency_amended.2 (some "A") ["A"] (fun _ => true) (fun _ => true)⟩

/-! ## Claim C9: output sanitizer -/

/-- C9 counterexample: _sanitize_output is NOT idempotent on every
well-formed input. Removing the meta note in "[Note: ]User: hi" exposes a
leading speaker tag that only a second pass strips: one pass gives
"User: hi", a second pass gives "hi". -/
theorem sanitizer_idempotence_counterexample :
    sanitizeOutput "[Note: ]User: hi" = "User: hi" ∧
    sanitizeOutput (sanitizeOutput "[Note: ]User: hi") = "hi" ∧
    ¬ sanitizeOutput (sanitizeOutput "[Note: ]User: hi") =
        sanitizeOutput "[Note: ]User: hi" := by
  decide

/-- C9 amended: _sanitize_output is a pure function of its input;
sanitize("Assistant: Hi *waves* [Note: internal] there") = "Hi there"
exactly, and applying sanitize twice to this input yields the same result
as once — but idempotence does not extend to all inputs (see the
counterexample). -/
theorem sanitizer_amended :
    sanitizeOutput "Assistant: Hi *waves* [Note: internal] there" = "Hi there" ∧
    sanitizeOutput (sanitizeOutput "Assistant: Hi *waves* [Note: internal] there") =
      sanitizeOutput "Assistant: Hi *waves* [Note: internal] there" := by
  decide

/-! ## Shape lemmas for the orchestrator -/

/-- A successful LLM path stores the returned text in the dedupe cache
and tags the response with the default model name and the call time. -/
theorem processLLMPath_ok_shape (env : WorkflowEnv) (wf : MessageDedupeCache)
    (pl ch mid : String) (now : Int) (r : ChatResponse) (wf2 : MessageDedupeCache)
    (h : processLLMPath env wf pl ch mid now = .ok (r, wf2)) :
    wf2 = wf.set pl ch mid r.text now ∧ r.model_used = DEFAULT_LLAMA_MODEL ∧
      r.timestamp = now := by
  unfold processLLMPath at h
  rcases hl : env.loadContext with e | u <;> simp only [hl] at h
  · exact Except.noConfusion h
  · rcases ha : env.askLLM with e | raw <;> simp only [ha] at h
    · exact Except.noConfusion h
    · rcases hs : env.saveConversation with e | u2 <;> simp only [hs] at h
      · exact Except.noConfusion h
      · obtain ⟨h1, h2⟩ := (Prod.mk.injEq _ _ _ _).mp (Except.ok.inj h)
        subst h1
        exact ⟨h2.symm, rfl, rfl⟩

/-- A successful try-block run stores the returned text in the dedupe
cache and tags the response "coding_skill" or with the default model. -/
theorem processCore_ok_shape (env : WorkflowEnv) (wf : MessageDedupeCache)
    (pl ch mid ut : String) (now : Int) (r : ChatResponse)
    (wf2 : MessageDedupeCache)
    (h : processCore env wf pl ch mid ut now = .ok (r, wf2)) :
    wf2 = wf.set pl ch mid r.text now ∧
      (r.model_used = "coding_skill" ∨ r.model_used = DEFAULT_LLAMA_MODEL) ∧
      r.timestamp = now := by
  unfold processCore at h
  rcases hq : env.codingQuery with e | _ | cr <;> simp only [hq] at h
  · have hs := processLLMPath_ok_shape env wf pl ch mid now r wf2 h
    exact ⟨hs.1, Or.inr hs.2.1, hs.2.2⟩
  · have hs := processLLMPath_ok_shape env wf pl ch mid now r wf2 h
    exact ⟨hs.1, Or.inr hs.2.1, hs.2.2⟩
  · by_cases hcr : cr = ""
    · rw [if_pos hcr] at h
      have hs := processLLMPath_ok_shape env wf pl ch mid now r wf2 h
      exact ⟨hs.1, Or.inr hs.2.1, hs.2.2⟩
    · rw [if_neg hcr] at h
      rcases hsv : env.saveConversation with e | u2 <;> simp only [hsv] at h
      · have hs := processLLMPath_ok_shape env wf pl ch mid now r wf2 h
        exact ⟨hs.1, Or.inr hs.2.1, hs.2.2⟩
      · obtain ⟨h1, h2⟩ := (Prod.mk.injEq _ _ _ _).mp (Except.ok.inj h)
        subst h1
        exact ⟨h2.symm, Or.inl rfl, rfl⟩

/-- A process_message call that returns neither the invalid-format
response nor a dedupe hit nor an error response passed validation,
resolved an identity, and left the dedupe cache equal to the
cleanup-then-set of the incoming cache with the returned text. -/
theorem processMessage_ok_shape (env : WorkflowEnv) (wf : MessageDedupeCache)
    (input : NormalizedInput) (now : Int) (r : ChatResponse)
    (wf' : MessageDedupeCache)
    (h : processMessage env wf input now = .ok (r, wf'))
    (hm1 : ¬ r.model_used = "N/A") (hm2 : ¬ r.model_used = "dedupe_cache") :
    (pythonTruthy input.external_user_id = true ∧
      pythonTruthy input.external_chat_id = true ∧
      ¬ pyStrip (input.text.getD "") = "") ∧
    (∃ u, resolveIdentity env input = .ok u) ∧
    wf' = (wf.cleanupExpired now).set (input.platform.getD "unknown")
      (input.external_chat_id.getD "") (input.message_id.getD "") r.text now ∧
    (r.model_used = "coding_skill" ∨ r.model_used = DEFAULT_LLAMA_MODEL) := by
  unfold processMessage at h
  by_cases hval : pythonTruthy input.external_user_id = true ∧
      pythonTruthy input.external_chat_id = true ∧
      ¬ pyStrip (input.text.getD "") = ""
  · rw [if_neg (not_not_intro hval)] at h
    rcases hid : resolveIdentity env input with e | u <;> simp only [hid] at h
    · exact Except.noConfusion h
    · rcases hlk : (wf.get (input.platform.getD "unknown")
          (input.external_chat_id.getD "") (input.message_id.getD "") now).1
        with _ | rr <;> simp only [hlk] at h
      · rcases hpc : processCore env
            ((wf.get (input.platform.getD "unknown")
              (input.external_chat_id.getD "") (input.message_id.getD "") now).2)
            (input.platform.getD "unknown") (input.external_chat_id.getD "")
            (input.message_id.getD "") (pyStrip (input.text.getD "")) now
          with e | pr <;> simp only [hpc] at h
        · obtain ⟨h1, h2⟩ := (Prod.mk.injEq _ _ _ _).mp (Except.ok.inj h)
          subst h1
          exact absurd rfl hm1
        · rcases pr with ⟨r0, wfc⟩
          obtain ⟨h1, h2⟩ := (Prod.mk.injEq _ _ _ _).mp (Except.ok.inj h)
          subst h1
          subst h2
          have hs := processCore_ok_shape env _ _ _ _ _ now r0 wfc hpc
          exact ⟨hval, ⟨u, rfl⟩, hs.1, hs.2.1⟩
      · by_cases hrr : rr = ""
        · rw [if_pos hrr] at h
          rcases hpc : processCore env
              ((wf.get (input.platform.getD "unknown")
                (input.external_chat_id.getD "") (input.message_id.getD "") now).2)
              (input.platform.getD "unknown") (input.external_chat_id.getD "")
              (input.message_id.getD "") (pyStrip (input.text.getD "")) now
            with e | pr <;> simp only [hpc] at h
          · obtain ⟨h1, h2⟩ := (Prod.mk.injEq _ _ _ _).mp (Except.ok.inj h)
            subst h1
            exact absurd rfl hm1
          · rcases pr with ⟨r0, wfc⟩
            obtain ⟨h1, h2⟩ := (Prod.mk.injEq _ _ _ _).mp (Except.ok.inj h)
            subst h1
            subst h2
            have hs := processCore_ok_shape env _ _ _ _ _ now r0 wfc hpc
            exact ⟨hval, ⟨u, rfl⟩, hs.1, hs.2.1⟩
        · rw [if_neg hrr] at h
          obtain ⟨h1, h2⟩ := (Prod.mk.injEq _ _ _ _).mp (Except.ok.inj h)
          subst h1
          exact absurd rfl hm2
  · rw [if_pos hval] at h
    obtain ⟨h1, h2⟩ := (Prod.mk.injEq _ _ _ _).mp (Except.ok.inj h)
    subst h1
    exact absurd rfl hm1

/-- An error escaping process_message can only come from the identity
resolution stage: everything after it is inside the try block (or is the
non-raising dedupe lookup). -/
theorem processMessage_error_of (env : WorkflowEnv) (wf : MessageDedupeCache)
    (input : NormalizedInput) (now : Int) (e : String)
    (h : processMessage env wf input now = .error e) :
    resolveIdentity env input = .error e := by
  unfold processMessage at h
  by_cases hval : pythonTruthy input.external_user_id = true ∧
      pythonTruthy input.external_chat_id = true ∧
      ¬ pyStrip (input.text.getD "") = ""
  · rw [if_neg (not_not_intro hval)] at h
    rcases hid : resolveIdentity env input with e2 | u <;> simp only [hid] at h
    · injection h with h2
      rw [h2]
    · rcases hlk : (wf.get (input.platform.getD "unknown")
          (input.external_chat_id.getD "") (input.message_id.getD "") now).1
        with _ | rr <;> simp only [hlk] at h
      · rcases hpc : processCore env
            ((wf.get (input.platform.getD "unknown")
              (input.external_chat_id.getD "") (input.message_id.getD "") now).2)
            (input.platform.getD "unknown") (input.external_chat_id.getD "")
            (input.message_id.getD "") (pyStrip (input.text.getD "")) now
          with e3 | pr <;> simp only [hpc] at h <;> exact Except.noConfusion h
      · by_cases hrr : rr = ""
        · rw [if_pos hrr] at h
          rcases hpc : processCore env
              ((wf.get (input.platform.getD "unknown")
                (input.external_chat_id.getD "") (input.message_id.getD "") now).2)
              (input.platform.getD "unknown") (input.external_chat_id.getD "")
              (input.message_id.getD "") (pyStrip (input.text.getD "")) now
            with e3 | pr <;> simp only [hpc] at h <;> exact Except.noConfusion h
        · rw [if_neg hrr] at h
          exact Except.noConfusion h
  · rw [if_pos hval] at h
    exact Except.noConfusion h

/-! ## Claim C1: dedupe idempotence at the workflow interface -/

/-- C1 counterexample: the claim fails when the first call's sanitized
response is the empty string. With the LLM returning pure action markup
"*waves*", the first call completes successfully (model_used is the
default model) and caches "", but the redelivered message is fully
reprocessed — the second call's model_used is the default model again,
not "dedupe_cache". -/
theorem dedupe_idempotence_counterexample :
    processMessage envActionOnly wfEmpty inputOK 0 =
      .ok (⟨"", DEFAULT_LLAMA_MODEL, 0⟩, ⟨600, 5000, [("api:u1:m1", 0, "")]⟩) ∧
    processMessage envActionOnly ⟨600, 5000, [("api:u1:m1", 0, "")]⟩ inputOK 10 =
      .ok (⟨"", DEFAULT_LLAMA_MODEL, 10⟩, ⟨600, 5000, [("api:u1:m1", 10, "")]⟩) ∧
    ¬ (DEFAULT_LLAMA_MODEL = "dedupe_cache") :=
  ⟨rfl, rfl, by decide⟩

/-- C1 amended: for a fixed (platform, external_chat_id, message_id), if a
process_message call completes successfully (neither the invalid-format
nor the error response, not itself a dedupe hit) and its returned text is
NON-EMPTY, then a second call with identical input within the dedupe TTL
(and the cache within its capacity bound) returns model_used =
"dedupe_cache" with text identical to the first call's text. -/
theorem dedupe_idempotence_amended (env : WorkflowEnv) (wf : MessageDedupeCache)
    (input : NormalizedInput) (now1 now2 : Int) (r : ChatResponse)
    (wf' : MessageDedupeCache)
    (hmax : 1 ≤ wf.maxSize) (hlen : (wf.entries.length : Int) ≤ wf.maxSize)
    (h1 : processMessage env wf input now1 = .ok (r, wf'))
    (hm1 : ¬ r.model_used = "N/A") (hm2 : ¬ r.model_used = "dedupe_cache")
    (ht : ¬ r.text = "") (httl : now2 - now1 ≤ wf.ttl) :
    ∃ wf2, processMessage env wf' input now2 =
      .ok (⟨r.text, "dedupe_cache", now2⟩, wf2) := by
  obtain ⟨hval, ⟨u, hid⟩, hwf, _⟩ :=
    processMessage_ok_shape env wf input now1 r wf' h1 hm1 hm2
  have hget : (wf'.get (input.platform.getD "unknown")
      (input.external_chat_id.getD "") (input.message_id.getD "") now2).1 =
      some r.text := by
    rw [hwf]
    refine msgGet_after_set (wf.cleanupExpired now1) _ _ _ _ now1 now2 hmax ?_ httl
    show (((wf.cleanupExpired now1).entries.length : Int)) ≤ wf.maxSize
    have hf : (wf.cleanupExpired now1).entries.length ≤ wf.entries.length :=
      List.length_filter_le _ _
    omega
  refine ⟨(wf'.get (input.platform.getD "unknown")
      (input.external_chat_id.getD "") (input.message_id.getD "") now2).2, ?_⟩
  unfold processMessage
  rw [if_neg (not_not_intro hval)]
  simp only [hid, hget]
  rw [if_neg ht]

/-- Witness for C1: the amended idempotence at a concrete successful first
call. -/
theorem dedupe_idempotence_amended_witness :
    ∃ wf2, processMessage envOK ⟨600, 5000, [("api:u1:m1", 0, "Bonjour!")]⟩
        inputOK 10 = .ok (⟨"Bonjour!", "dedupe_cache", 10⟩, wf2) :=
  dedupe_idempotence_amended envOK wfEmpty inputOK 0 10
    ⟨"Bonjour!", DEFAULT_LLAMA_MODEL, 0⟩
    ⟨600, 5000, [("api:u1:m1", 0, "Bonjour!")]⟩
    (by decide) (by decide) rfl (by decide) (by decide) (by decide) (by decide)

/-! ## Claim C2: exception safety of the orchestrator -/

/-- C2 counterexample: identity resolution sits BEFORE the try block, so
an exception raised by UserManager.get_or_create_user_internal_id escapes
process_message to the caller instead of being converted into an error
response. -/
theorem process_message_throws_counterexample :
    processMessage envIdentityDown wfEmpty inputOK 0 = .error "db down" ∧
    exceptIsOk (processMessage envIdentityDown wfEmpty inputOK 0) = false :=
  ⟨rfl, rfl⟩

/-- C2 amended: if the identity-resolution stage does not raise (a truthy
internal_id was supplied, or the user-manager lookup succeeds), then
process_message never lets an exception escape: every other failure —
coding-skill probe, context load, LLM call, persistence — is caught and
converted into a returned response (which by construction carries a text,
a timestamp and a model_used marker). -/
theorem process_message_no_throw_amended (env : WorkflowEnv)
    (wf : MessageDedupeCache) (input : NormalizedInput) (now : Int)
    (hid : pythonTruthy input.internal_id = true ∨
      ∃ u, env.getOrCreateInternalId = .ok u) :
    exceptIsOk (processMessage env wf input now) = true := by
  have hres : ∃ u, resolveIdentity env input = .ok u := by
    unfold resolveIdentity
    rcases hid with h | ⟨u, hu⟩
    · exact ⟨input.internal_id.getD "", by rw [if_pos h]⟩
    · by_cases hint : pythonTruthy input.internal_id = true
      · exact ⟨input.internal_id.getD "", by rw [if_pos hint]⟩
      · exact ⟨u, by rw [if_neg hint]; exact hu⟩
  obtain ⟨u, hu⟩ := hres
  rcases hr : processMessage env wf input now with e | p
  · have := processMessage_error_of env wf input now e hr
    rw [this] at hu
    exact Except.noConfusion hu
  · rfl

/-- Witness for C2: a concrete turn whose identity lookup succeeds
returns normally. -/
theorem process_message_no_throw_amended_witness :
    exceptIsOk (processMessage envOK wfEmpty inputOK 0) = true :=
  process_message_no_throw_amended envOK wfEmpty inputOK 0
    (Or.inr ⟨"user-1", rfl⟩)

/-! ## Claim C10: empty cached values are treated as misses -/

/-- C10: an empty string stored as a cached value is never served as a
hit. If the workflow dedupe cache holds "" for the message key, the
redelivery is fully reprocessed (the returned model_used is never
"dedupe_cache"), and an empty-string entry in the LLM response cache is
treated as a miss by ask_llm's `if cached_response:` truthiness test. -/
theorem empty_cached_value_never_served :
    (∀ (env : WorkflowEnv) (wf : MessageDedupeCache) (input : NormalizedInput)
        (now : Int) (r : ChatResponse) (wf' : MessageDedupeCache),
      (wf.get (input.platform.getD "unknown") (input.external_chat_id.getD "")
        (input.message_id.getD "") now).1 = some "" →
      processMessage env wf input now = .ok (r, wf') →
      ¬ r.model_used = "dedupe_cache") ∧
    (∀ (rc : ResponseCache) (key : String) (now ts : Int),
      assocFind key rc = some ("", ts) → askShortCircuit rc key now = none) := by
  constructor
  · intro env wf input now r wf' hget h
    unfold processMessage at h
    by_cases hval : pythonTruthy input.external_user_id = true ∧
        pythonTruthy input.external_chat_id = true ∧
        ¬ pyStrip (input.text.getD "") = ""
    · rw [if_neg (not_not_intro hval)] at h
      rcases hid : resolveIdentity env input with e | u <;> simp only [hid] at h
      · exact Except.noConfusion h
      · simp only [hget] at h
        rw [if_pos trivial] at h
        rcases hpc : processCore env
            ((wf.get (input.platform.getD "unknown")
              (input.external_chat_id.getD "") (input.message_id.getD "") now).2)
            (input.platform.getD "unknown") (input.external_chat_id.getD "")
            (input.message_id.getD "") (pyStrip (input.text.getD "")) now
          with e | pr <;> simp only [hpc] at h
        · obtain ⟨h1, h2⟩ := (Prod.mk.injEq _ _ _ _).mp (Except.ok.inj h)
          subst h1
          exact (by decide : ¬ ("N/A" : String) = "dedupe_cache")
        · rcases pr with ⟨r0, wfc⟩
          obtain ⟨h1, h2⟩ := (Prod.mk.injEq _ _ _ _).mp (Except.ok.inj h)
          subst h1
          have hs := processCore_ok_shape env _ _ _ _ _ now r0 wfc hpc
          rcases hs.2.1 with hcs | hdf
          · rw [hcs]; decide
          · rw [hdf]; decide
    · rw [if_pos hval] at h
      obtain ⟨h1, h2⟩ := (Prod.mk.injEq _ _ _ _).mp (Except.ok.inj h)
      subst h1
      exact (by decide : ¬ ("N/A" : String) = "dedupe_cache")
  · intro rc key now ts h
    unfold askShortCircuit responseCacheGet
    simp only [h]
    by_cases httl2 : now - ts < RESPONSE_CACHE_TTL
    · simp [httl2]
    · simp [httl2]

/-- Witness for C10: a live empty-string dedupe entry for the incoming
message leads to reprocessing (default model, not "dedupe_cache"), and a
live empty-string response-cache entry does not short-circuit ask_llm. -/
theorem empty_cached_value_never_served_witness :
    ¬ (ChatResponse.mk "" DEFAULT_LLAMA_MODEL 10).model_used = "dedupe_cache" ∧
    askShortCircuit [("k", ("", 5))] "k" 10 = none :=
  ⟨empty_cached_value_never_served.1 envActionOnly
      ⟨600, 5000, [("api:u1:m1", 0, "")]⟩ inputOK 10
      ⟨"", DEFAULT_LLAMA_MODEL, 10⟩ ⟨600, 5000, [("api:u1:m1", 10, "")]⟩ rfl rfl,
   empty_cached_value_never_served.2 [("k", ("", 5))] "k" 10 5 rfl⟩
